import Mathlib

/-!
Shallow embedding of the plugin-hosting backend (`main.py`): data model,
owner gate, upload transaction, listing service and download service,
together with proofs of the behavioural properties claimed for them.

HTTP status mapping used throughout: `unauthorized` ↦ 401,
`badExtension`/invalid input ↦ 400, `notFound` ↦ 404,
`insertError`/`internalError` ↦ 500, the remaining constructors ↦ 200.

File contents are modelled as `List Nat` (byte sequences), the uploads
directory as an association list from stored filename to bytes (most
recent write first), and the Mongo `plugin` collection as a list of
documents in insertion order.  Failure of the metadata insert and of the
rollback `os.remove` are modelled by explicit oracles, since they depend
on the external store / filesystem.
-/

/-- Python `str.lower` restricted to ASCII, as applied to filenames. -/
def pyToLower (c : Char) : Char :=
  if 'A' ≤ c ∧ c ≤ 'Z' then Char.ofNat (c.toNat + 32) else c

/-- `s.lower()` on a Python string. -/
def pyLower (s : String) : String := ⟨s.toList.map pyToLower⟩

/-- `s.endswith(suffix)` on a Python string. -/
def pyEndsWith (s suff : String) : Bool :=
  List.isSuffixOf suff.toList s.toList

/-- The characters of `os.path.basename`: keep the segment after the last
`'/'` (`cur` accumulates the current segment, reversed). -/
def lastSegment (cur : List Char) : List Char → List Char
  | [] => cur.reverse
  | c :: cs => if c = '/' then lastSegment [] cs else lastSegment (c :: cur) cs

/-- `str.replace(" ", "_")` acts independently on each character. -/
def replaceSpace (c : Char) : Char := if c = ' ' then '_' else c

/-- `os.path.basename(original_name).replace(" ", "_")` from `upload_plugin`. -/
def sanitizeBase (s : String) : String :=
  ⟨(lastSegment [] s.toList).map replaceSpace⟩

/-- One digit of a zero-padded decimal field (`digitChar n` is the last
decimal digit of `n` as a character). -/
def digitChar (n : Nat) : Char := Char.ofNat (48 + n % 10)

/-- A UTC instant as `datetime.utcnow()` provides it (year ≤ 9999 in Python). -/
structure UTCTime where
  year : Nat
  month : Nat
  day : Nat
  hour : Nat
  minute : Nat
  second : Nat

/-- `datetime.utcnow().strftime("%Y%m%d%H%M%S")`: four zero-padded digits of
the year then two each for month, day, hour, minute, second.  (For the
in-range values `datetime` produces — year ≤ 9999, two-digit remaining
fields — this agrees with `strftime`.) -/
def formatTimestamp (t : UTCTime) : String :=
  ⟨[digitChar (t.year / 1000), digitChar (t.year / 100), digitChar (t.year / 10),
    digitChar t.year,
    digitChar (t.month / 10), digitChar t.month,
    digitChar (t.day / 10), digitChar t.day,
    digitChar (t.hour / 10), digitChar t.hour,
    digitChar (t.minute / 10), digitChar t.minute,
    digitChar (t.second / 10), digitChar t.second]⟩

/-- `stored_name = f"{timestamp}_{safe_base}"` in `upload_plugin`. -/
def storedName (now : UTCTime) (original_name : String) : String :=
  formatTimestamp now ++ "_" ++ sanitizeBase original_name

/-- One lowercase hexadecimal digit (for `n < 16`). -/
def hexDigitChar (n : Nat) : Char :=
  if n < 10 then Char.ofNat (48 + n) else Char.ofNat (87 + n)

/-- `k` lowercase hex digits of `n`, most significant first. -/
def hexChars : Nat → Nat → List Char
  | 0, _ => []
  | k + 1, n => hexChars k (n / 16) ++ [hexDigitChar (n % 16)]

/-- Modelled from the spec: the Metadata Store's ids are opaque unique
identifiers rendered as 24-hex-character strings (`id:"<24-hex>"`); the
`n`-th id generated by the store. -/
def newObjectId (n : Nat) : String := ⟨hexChars 24 n⟩

/-- A character `bson.ObjectId` accepts in a 24-character hex string. -/
def isHexChar (c : Char) : Bool :=
  ('0' ≤ c && c ≤ '9') || ('a' ≤ c && c ≤ 'f') || ('A' ≤ c && c ≤ 'F')

/-- `ObjectId(plugin_id)`: accepts exactly 24-character hex strings
(case-insensitively, two equal-valued ids compare equal, hence the
lowercase normalisation); anything else raises `InvalidId`, modelled as
`none`. -/
def parseObjectId (s : String) : Option String :=
  if s.toList.length = 24 && s.toList.all isHexChar then some (pyLower s) else none

/-- The `doc` dictionary built by `upload_plugin` before insertion. -/
structure PluginDoc where
  name : String
  description : Option String
  version : Option String
  filename : String
  original_name : String
  file_size : Option Nat
  download_count : Option Nat
  deriving DecidableEq, Repr

/-- A document of the `plugin` collection: the uploaded fields plus the
`_id` and `created_at` the store layer adds at insert time. -/
structure StoredDoc extends PluginDoc where
  _id : String
  created_at : String
  deriving DecidableEq, Repr

/-- The server's mutable state: the `uploads/` directory (most recent
write first), the `plugin` collection in insertion order, and the store's
id source. -/
structure ServerState where
  files : List (String × List Nat)
  docs : List StoredDoc
  nextId : Nat
  deriving DecidableEq, Repr

/-- `open(stored_path, "wb")` followed by a whole-file write. -/
def fsWrite (fs : List (String × List Nat)) (n : String) (bs : List Nat) :
    List (String × List Nat) :=
  (n, bs) :: fs

/-- `os.remove(path)`. -/
def fsRemove (fs : List (String × List Nat)) (n : String) :
    List (String × List Nat) :=
  fs.filter (fun p => p.1 ≠ n)

/-- Reading the file stored under name `n`; `os.path.exists` is `isSome`. -/
def fsLookup (fs : List (String × List Nat)) (n : String) : Option (List Nat) :=
  match fs with
  | [] => none
  | p :: ps => if p.1 = n then some p.2 else fsLookup ps n

/-- `db["plugin"].find_one({"_id": oid})`: the first document whose id
matches. -/
def findPlugin (oid : String) : List StoredDoc → Option StoredDoc
  | [] => none
  | d :: ds => if d._id = oid then some d else findPlugin oid ds

/-- `db["plugin"].update_one({"_id": oid}, {"$inc": {"download_count": 1}})`:
increment the counter of the first matching document (Mongo's `$inc`
treats an absent field as 0). -/
def incDownloadCount (oid : String) : List StoredDoc → List StoredDoc
  | [] => []
  | d :: ds =>
      if d._id = oid then
        { d with download_count := some (d.download_count.getD 0 + 1) } :: ds
      else d :: incDownloadCount oid ds

/-- Modelled from the spec: `create_document` lives in `database.py`,
which is not among the sources.  Per the spec the store assigns an opaque
unique id on insert, sets `created_at` at insert time, appends the
document in insertion order and returns the new id. -/
def create_document (doc : PluginDoc) (st : ServerState) : String × ServerState :=
  let oid := newObjectId st.nextId
  (oid,
   { st with
       docs := st.docs ++ [⟨doc, oid, "created@" ++ toString st.nextId⟩]
       nextId := st.nextId + 1 })

/-- Modelled from the spec: `get_documents` (`database.py`, not among the
sources) returns the stored documents in insertion order, up to the
optional cap. -/
def get_documents (docs : List StoredDoc) (limit : Option Nat) : List StoredDoc :=
  match limit with
  | none => docs
  | some k => docs.take k

/-- Result of `POST /api/auth/verify`. -/
inductive VerifyResult where
  | ok
  | invalidKey
  deriving DecidableEq, Repr

/-- `verify_owner`: authorize iff the body key is truthy and equals
`os.getenv("OWNER_KEY", "changeme")`. -/
def verify_owner (key : String) (envOwnerKey : Option String) : VerifyResult :=
  let owner_key := envOwnerKey.getD "changeme"
  if key ≠ "" ∧ key = owner_key then .ok else .invalidKey

/-- The uploaded file part: the (possibly absent) client filename and the
bytes `await file.read()` yields. -/
structure UploadFileArg where
  filename : Option String
  contents : List Nat
  deriving DecidableEq, Repr

/-- `original_name = file.filename or "plugin.jar"`: Python `or` falls
through on a missing or empty filename. -/
def resolveOriginalName : Option String → String
  | none => "plugin.jar"
  | some s => if s = "" then "plugin.jar" else s

/-- Result of `POST /api/plugins/upload`. -/
inductive UploadResult where
  | ok (id : String)
  | unauthorized
  | badExtension
  | insertError (msg : String)
  deriving DecidableEq, Repr

/-- `upload_plugin`.  `envOwnerKey` is the `OWNER_KEY` environment variable,
`now` the wall clock at `datetime.utcnow()`, `dbErr` the metadata-insert
failure oracle (`some msg` means `create_document` raises with message
`msg`) and `removeFails` the oracle for the rollback `os.remove`. -/
def upload_plugin (name : String) (description version : Option String)
    (file : UploadFileArg) (x_owner_key : Option String)
    (envOwnerKey : Option String) (now : UTCTime)
    (dbErr : Option String) (removeFails : Bool) (st : ServerState) :
    UploadResult × ServerState :=
  let owner_key := envOwnerKey.getD "changeme"
  if x_owner_key ≠ some owner_key then (.unauthorized, st)
  else
    let original_name := resolveOriginalName file.filename
    if ¬ pyEndsWith (pyLower original_name) ".jar" then (.badExtension, st)
    else
      let stored_name := storedName now original_name
      let contents := file.contents
      let st1 := { st with files := fsWrite st.files stored_name contents }
      let size := contents.length
      let doc : PluginDoc :=
        { name := name, description := description, version := version,
          filename := stored_name, original_name := original_name,
          file_size := some size, download_count := some 0 }
      match dbErr with
      | some msg =>
          let st2 :=
            if removeFails then st1
            else { st1 with files := fsRemove st1.files stored_name }
          (.insertError msg, st2)
      | none =>
          let r := create_document doc st1
          (.ok r.1, r.2)

/-- A JSON value as the listing emits it. -/
inductive JVal where
  | s (v : String)
  | nat (v : Nat)
  | null
  deriving DecidableEq, Repr

/-- An optional string field of a document, as JSON. -/
def optS : Option String → JVal
  | none => .null
  | some v => .s v

/-- The dictionary `list_plugins` builds for one document: normalized id,
public fields, defaults for absent sizes and counters, no `filename`. -/
def projectDoc (it : StoredDoc) : List (String × JVal) :=
  [("id", .s it._id),
   ("name", .s it.name),
   ("description", optS it.description),
   ("version", optS it.version),
   ("original_name", .s it.original_name),
   ("file_size", .nat (it.file_size.getD 0)),
   ("download_count", .nat (it.download_count.getD 0)),
   ("created_at", .s it.created_at)]

/-- `list_plugins` (`GET /api/plugins`): project every stored document. -/
def list_plugins (limit : Option Nat) (st : ServerState) :
    List (List (String × JVal)) :=
  (get_documents st.docs limit).map projectDoc

/-- Result of `GET /api/plugins/{id}/download`. -/
inductive DownloadResult where
  | fileResp (bytes : List Nat) (media_type : String) (filename : String)
  | notFound (msg : String)
  | internalError (msg : String)
  deriving DecidableEq, Repr

/-- `download_plugin`: parse the id (`ObjectId` raises on malformed input,
caught by the blanket `except` as a 500), look up the record (404 if
absent), check the blob exists (404 if missing), increment the counter and
respond with the bytes under the original filename. -/
def download_plugin (plugin_id : String) (st : ServerState) :
    DownloadResult × ServerState :=
  match parseObjectId plugin_id with
  | none => (.internalError "is not a valid ObjectId", st)
  | some oid =>
      match findPlugin oid st.docs with
      | none => (.notFound "Not found", st)
      | some it =>
          let stored_name := it.filename
          let original_name :=
            if it.original_name = "" then stored_name else it.original_name
          match fsLookup st.files stored_name with
          | none => (.notFound "File missing on server", st)
          | some bytes =>
              (.fileResp bytes "application/java-archive" original_name,
               { st with docs := incDownloadCount oid st.docs })

/-- `N` sequential calls of the download endpoint on the same id. -/
def downloadN : Nat → String → ServerState → ServerState
  | 0, _, st => st
  | n + 1, pid, st => downloadN n pid (download_plugin pid st).2

/-- A fixed wall-clock instant, 2025-01-02 03:04:05 UTC. -/
def tW : UTCTime := ⟨2025, 1, 2, 3, 4, 5⟩

/-- The freshly started server: empty uploads directory, empty collection. -/
def stEmpty : ServerState := ⟨[], [], 0⟩

/-- A stored document whose blob lives under `f.jar`. -/
def docW : StoredDoc :=
  ⟨⟨"Foo", none, none, "f.jar", "Plugin.jar", some 3, some 0⟩, newObjectId 0, "c0"⟩

/-- A state holding `docW` together with its blob. -/
def stW : ServerState := ⟨[("f.jar", [1, 2, 3])], [docW], 1⟩

/-- A state holding `docW` but whose blob is missing from disk. -/
def stMissing : ServerState := ⟨[], [docW], 1⟩

/-! ### Basic lemmas about the embedded primitives -/

theorem toList_mk (l : List Char) : (String.mk l).toList = l := rfl

theorem toList_append (s t : String) : (s ++ t).toList = s.toList ++ t.toList := by
  cases s
  cases t
  rfl

theorem map_eq_self_of_fix {f : Char → Char} :
    ∀ l : List Char, (∀ c ∈ l, f c = c) → l.map f = l := by
  intro l h
  induction l with
  | nil => rfl
  | cons c cs ih =>
      simp only [List.map_cons, List.cons.injEq]
      exact ⟨h c (List.mem_cons_self c cs), ih fun x hx => h x (List.mem_cons_of_mem c hx)⟩

theorem digitChar_cases :
    ∀ m, m < 10 →
      (Char.ofNat (48 + m)).isDigit = true ∧ Char.ofNat (48 + m) ≠ '/' ∧
        Char.ofNat (48 + m) ≠ ' ' := by
  decide

theorem digitChar_props (n : Nat) :
    (digitChar n).isDigit = true ∧ digitChar n ≠ '/' ∧ digitChar n ≠ ' ' :=
  digitChar_cases (n % 10) (Nat.mod_lt n (by norm_num))

theorem hexDigitChar_cases :
    ∀ m, m < 16 →
      isHexChar (hexDigitChar m) = true ∧ pyToLower (hexDigitChar m) = hexDigitChar m := by
  decide

theorem hexChars_length : ∀ k n, (hexChars k n).length = k := by
  intro k
  induction k with
  | zero => intro n; rfl
  | succ k ih =>
      intro n
      simp [hexChars, ih]

theorem hexChars_mem :
    ∀ k n c, c ∈ hexChars k n → isHexChar c = true ∧ pyToLower c = c := by
  intro k
  induction k with
  | zero => intro n c hc; simp [hexChars] at hc
  | succ k ih =>
      intro n c hc
      simp only [hexChars, List.mem_append, List.mem_singleton] at hc
      rcases hc with hc | rfl
      · exact ih _ c hc
      · exact hexDigitChar_cases (n % 16) (Nat.mod_lt n (by norm_num))

theorem pyLower_mk (l : List Char) : pyLower ⟨l⟩ = ⟨l.map pyToLower⟩ := rfl

theorem parseObjectId_newObjectId (n : Nat) :
    parseObjectId (newObjectId n) = some (newObjectId n) := by
  have hlen : (hexChars 24 n).length = 24 := hexChars_length 24 n
  have hall : (hexChars 24 n).all isHexChar = true :=
    List.all_eq_true.mpr fun c hc => (hexChars_mem 24 n c hc).1
  have hfix : (hexChars 24 n).map pyToLower = hexChars 24 n :=
    map_eq_self_of_fix _ fun c hc => (hexChars_mem 24 n c hc).2
  simp [parseObjectId, newObjectId, toList_mk, hlen, hall, pyLower_mk, hfix]

theorem fsRemove_eq_self :
    ∀ (fs : List (String × List Nat)) (n : String), fsLookup fs n = none →
      fsRemove fs n = fs := by
  intro fs n h
  induction fs with
  | nil => rfl
  | cons p ps ih =>
      simp only [fsLookup] at h
      by_cases hp : p.1 = n
      · simp [hp] at h
      · simp only [if_neg hp] at h
        have hps := ih h
        simp only [fsRemove] at hps ⊢
        rw [List.filter_cons, if_pos (decide_eq_true hp), hps]

theorem fsRemove_fsWrite (fs : List (String × List Nat)) (n : String) (bs : List Nat) :
    fsRemove (fsWrite fs n bs) n = fsRemove fs n := by
  simp [fsRemove, fsWrite, List.filter]

theorem findPlugin_append :
    ∀ (ds l : List StoredDoc) (oid : String), (∀ d ∈ ds, d._id ≠ oid) →
      findPlugin oid (ds ++ l) = findPlugin oid l := by
  intro ds l oid h
  induction ds with
  | nil => rfl
  | cons d ds ih =>
      simp only [List.cons_append, findPlugin, if_neg (h d (List.mem_cons_self d ds))]
      exact ih fun x hx => h x (List.mem_cons_of_mem d hx)

theorem findPlugin_incDownloadCount :
    ∀ (ds : List StoredDoc) (oid : String),
      findPlugin oid (incDownloadCount oid ds) =
        (findPlugin oid ds).map
          (fun d => { d with download_count := some (d.download_count.getD 0 + 1) }) := by
  intro ds oid
  induction ds with
  | nil => rfl
  | cons d ds ih =>
      by_cases hd : d._id = oid
      · simp [incDownloadCount, findPlugin, hd]
      · simp [incDownloadCount, findPlugin, hd, ih]

theorem download_plugin_success (pid oid : String) (st : ServerState)
    (d : StoredDoc) (bs : List Nat)
    (hp : parseObjectId pid = some oid)
    (hf : findPlugin oid st.docs = some d)
    (hl : fsLookup st.files d.filename = some bs) :
    download_plugin pid st =
      (.fileResp bs "application/java-archive"
         (if d.original_name = "" then d.filename else d.original_name),
       { st with docs := incDownloadCount oid st.docs }) := by
  simp [download_plugin, hp, hf, hl]

theorem downloadN_count :
    ∀ (N : Nat) (pid oid : String) (st : ServerState) (d : StoredDoc) (k : Nat)
      (bs : List Nat),
      parseObjectId pid = some oid →
      findPlugin oid st.docs = some d →
      d.download_count = some k →
      fsLookup st.files d.filename = some bs →
      findPlugin oid (downloadN N pid st).docs
        = some { d with download_count := some (k + N) } ∧
      (downloadN N pid st).files = st.files := by
  intro N
  induction N with
  | zero =>
      intro pid oid st d k bs hp hf hd hl
      refine ⟨?_, rfl⟩
      simp only [downloadN]
      rw [hf]
      obtain ⟨⟨nm, de, vr, fl, onm, fsz, dc⟩, i, ca⟩ := d
      have hd' : dc = some k := hd
      subst hd'
      rfl
  | succ N ih =>
      intro pid oid st d k bs hp hf hd hl
      have hstep := download_plugin_success pid oid st d bs hp hf hl
      simp only [downloadN, hstep]
      have hf2 : findPlugin oid ({ st with docs := incDownloadCount oid st.docs } : ServerState).docs
          = some { d with download_count := some (k + 1) } := by
        show findPlugin oid (incDownloadCount oid st.docs) = _
        rw [findPlugin_incDownloadCount, hf]
        simp [hd]
      have hd2 : ({ d with download_count := some (k + 1) } : StoredDoc).download_count
          = some (k + 1) := rfl
      have hl2 : fsLookup ({ st with docs := incDownloadCount oid st.docs } : ServerState).files
          ({ d with download_count := some (k + 1) } : StoredDoc).filename = some bs := hl
      have hres := ih pid oid _ _ (k + 1) bs hp hf2 hd2 hl2
      have e : k + 1 + N = k + (N + 1) := by omega
      refine ⟨?_, hres.2⟩
      rw [hres.1, e]

theorem lastSegment_no_slash :
    ∀ (l cur : List Char), (∀ c ∈ cur, c ≠ '/') →
      ∀ c ∈ lastSegment cur l, c ≠ '/' := by
  intro l
  induction l with
  | nil =>
      intro cur h c hc
      simp only [lastSegment] at hc
      exact h c (List.mem_reverse.mp hc)
  | cons a as ih =>
      intro cur h c hc
      simp only [lastSegment] at hc
      by_cases ha : a = '/'
      · rw [if_pos ha] at hc
        exact ih [] (by simp) c hc
      · rw [if_neg ha] at hc
        refine ih (a :: cur) ?_ c hc
        intro x hx
        rcases List.mem_cons.mp hx with rfl | hx
        · exact ha
        · exact h x hx

theorem sanitizeBase_chars (s : String) :
    ∀ c ∈ (sanitizeBase s).toList, c ≠ '/' ∧ c ≠ ' ' := by
  intro c hc
  simp only [sanitizeBase, toList_mk, List.mem_map] at hc
  obtain ⟨a, ha, rfl⟩ := hc
  have hslash : a ≠ '/' := lastSegment_no_slash _ [] (by simp) a ha
  simp only [replaceSpace]
  by_cases h : a = ' '
  · simp [h]
  · simp [h, hslash]

theorem formatTimestamp_digits (t : UTCTime) :
    (formatTimestamp t).toList.length = 14 ∧
      ∀ c ∈ (formatTimestamp t).toList, c.isDigit = true ∧ c ≠ '/' := by
  refine ⟨rfl, ?_⟩
  intro c hc
  simp only [formatTimestamp, toList_mk, List.mem_cons, List.not_mem_nil, or_false] at hc
  rcases hc with rfl|rfl|rfl|rfl|rfl|rfl|rfl|rfl|rfl|rfl|rfl|rfl|rfl|rfl
  all_goals exact ⟨(digitChar_props _).1, (digitChar_props _).2.1⟩

theorem storedName_toList (now : UTCTime) (orig : String) :
    (storedName now orig).toList =
      (formatTimestamp now).toList ++ '_' :: (sanitizeBase orig).toList := by
  simp [storedName, toList_append]

theorem upload_plugin_success_eq (name : String) (description version : Option String)
    (file : UploadFileArg) (env : Option String) (now : UTCTime) (st : ServerState)
    (hext : pyEndsWith (pyLower (resolveOriginalName file.filename)) ".jar" = true) :
    upload_plugin name description version file (some (env.getD "changeme")) env now
        none false st =
      (.ok (newObjectId st.nextId),
       { files := (storedName now (resolveOriginalName file.filename), file.contents)
             :: st.files,
         docs := st.docs ++
           [⟨⟨name, description, version,
              storedName now (resolveOriginalName file.filename),
              resolveOriginalName file.filename, some file.contents.length, some 0⟩,
             newObjectId st.nextId, "created@" ++ toString st.nextId⟩],
         nextId := st.nextId + 1 }) := by
  simp [upload_plugin, hext, create_document, fsWrite]

theorem upload_auth_iff (name : String) (description version : Option String)
    (file : UploadFileArg) (k : String) (env : Option String) (now : UTCTime)
    (dbErr : Option String) (removeFails : Bool) (st : ServerState) :
    (upload_plugin name description version file (some k) env now dbErr removeFails st).1
        ≠ .unauthorized ↔ k = env.getD "changeme" := by
  constructor
  · intro h
    by_contra hk
    exact h (by simp [upload_plugin, hk])
  · intro hk
    subst hk
    rcases dbErr with _ | msg <;>
      by_cases hext :
        pyEndsWith (pyLower (resolveOriginalName file.filename)) ".jar" = true <;>
      simp [upload_plugin, hext, create_document]

/-! ### The claimed properties -/

/-- C1: an upload that passes authorization and the extension check but
whose metadata insert fails surfaces the original insert error (HTTP 500)
whatever the best-effort blob delete does (its failure is swallowed,
never masking the insert error), creates no document, and — when the
delete succeeds — restores the state exactly: zero net documents and zero
net files. -/
theorem upload_rollback_on_insert_failure (name : String)
    (description version : Option String) (file : UploadFileArg)
    (env : Option String) (now : UTCTime) (msg : String) (removeFails : Bool)
    (st : ServerState)
    (hext : pyEndsWith (pyLower (resolveOriginalName file.filename)) ".jar" = true)
    (hfresh : fsLookup st.files
        (storedName now (resolveOriginalName file.filename)) = none) :
    (upload_plugin name description version file (some (env.getD "changeme")) env now
        (some msg) removeFails st).1 = .insertError msg ∧
    (upload_plugin name description version file (some (env.getD "changeme")) env now
        (some msg) removeFails st).2.docs = st.docs ∧
    (upload_plugin name description version file (some (env.getD "changeme")) env now
        (some msg) false st).2 = st := by
  refine ⟨?_, ?_, ?_⟩
  · cases removeFails <;> simp [upload_plugin, hext]
  · cases removeFails <;> simp [upload_plugin, hext]
  · simp only [upload_plugin, ne_eq, not_true_eq_false, if_false, ite_not]
    simp only [hext, if_true, Option.getD_some]
    rw [fsRemove_fsWrite, fsRemove_eq_self _ _ hfresh]
    rfl

/-- C2: uploading content `C` under a nonempty client filename `F` that
ends in ".jar" (authorized, insert succeeding, fresh id) and then
downloading the returned id yields exactly the bytes `C`, with the
suggested download filename `F` — the original name, not the stored
name. -/
theorem upload_download_roundtrip (name : String) (description version : Option String)
    (F : String) (C : List Nat) (env : Option String) (now : UTCTime) (st : ServerState)
    (hF : F ≠ "")
    (hext : pyEndsWith (pyLower F) ".jar" = true)
    (hfresh : ∀ d ∈ st.docs, d._id ≠ newObjectId st.nextId) :
    (upload_plugin name description version ⟨some F, C⟩ (some (env.getD "changeme")) env
        now none false st).1 = .ok (newObjectId st.nextId) ∧
    (download_plugin (newObjectId st.nextId)
        (upload_plugin name description version ⟨some F, C⟩ (some (env.getD "changeme"))
            env now none false st).2).1
      = .fileResp C "application/java-archive" F := by
  have horig : resolveOriginalName (some F) = F := by
    simp [resolveOriginalName, hF]
  have hext' : pyEndsWith
      (pyLower (resolveOriginalName (⟨some F, C⟩ : UploadFileArg).filename)) ".jar"
      = true := by
    show pyEndsWith (pyLower (resolveOriginalName (some F))) ".jar" = true
    rw [horig]; exact hext
  have hup := upload_plugin_success_eq name description version ⟨some F, C⟩ env now st hext'
  rw [hup]
  refine ⟨rfl, ?_⟩
  have hp := parseObjectId_newObjectId st.nextId
  have hf : findPlugin (newObjectId st.nextId)
      (st.docs ++
        [⟨⟨name, description, version, storedName now F, F, some C.length, some 0⟩,
          newObjectId st.nextId, "created@" ++ toString st.nextId⟩])
      = some ⟨⟨name, description, version, storedName now F, F, some C.length, some 0⟩,
          newObjectId st.nextId, "created@" ++ toString st.nextId⟩ := by
    rw [findPlugin_append st.docs _ _ hfresh]
    simp [findPlugin]
  have hl : fsLookup ((storedName now F, C) :: st.files) (storedName now F)
      = some C := by
    simp [fsLookup]
  simp [download_plugin, hp, hf, hl, horig, hF]

/-- C3: `download_count` is inserted as 0 at upload; a download that does
not serve a file leaves the state untouched; a successful download —
which requires the blob to be found on disk first — increments exactly
the matched record's counter by 1 and changes nothing else; and `N`
sequential successful downloads of the same id take the counter from 0
to `N`. -/
theorem download_count_lifecycle :
    (∀ (name : String) (description version : Option String) (file : UploadFileArg)
       (env : Option String) (now : UTCTime) (st : ServerState),
       pyEndsWith (pyLower (resolveOriginalName file.filename)) ".jar" = true →
       ∃ d, (upload_plugin name description version file (some (env.getD "changeme"))
               env now none false st).2.docs = st.docs ++ [d] ∧
         d.download_count = some 0) ∧
    (∀ (pid : String) (st : ServerState),
       (download_plugin pid st).2 = st ∨
       ∃ bs fn, (download_plugin pid st).1 = .fileResp bs "application/java-archive" fn) ∧
    (∀ (pid oid : String) (st : ServerState) (d : StoredDoc) (bs : List Nat),
       parseObjectId pid = some oid →
       findPlugin oid st.docs = some d →
       fsLookup st.files d.filename = some bs →
       (download_plugin pid st).2.docs = incDownloadCount oid st.docs ∧
       (download_plugin pid st).2.files = st.files ∧
       findPlugin oid (download_plugin pid st).2.docs
         = some { d with download_count := some (d.download_count.getD 0 + 1) }) ∧
    (∀ (N : Nat) (pid oid : String) (st : ServerState) (d : StoredDoc) (bs : List Nat),
       parseObjectId pid = some oid →
       findPlugin oid st.docs = some d →
       d.download_count = some 0 →
       fsLookup st.files d.filename = some bs →
       findPlugin oid (downloadN N pid st).docs
         = some { d with download_count := some N }) := by
  refine ⟨?_, ?_, ?_, ?_⟩
  · intro name description version file env now st hext
    rw [upload_plugin_success_eq name description version file env now st hext]
    exact ⟨_, rfl, rfl⟩
  · intro pid st
    rcases hp : parseObjectId pid with _ | oid
    · left; simp [download_plugin, hp]
    · rcases hf : findPlugin oid st.docs with _ | d
      · left; simp [download_plugin, hp, hf]
      · rcases hl : fsLookup st.files d.filename with _ | bs
        · left; simp [download_plugin, hp, hf, hl]
        · right
          exact ⟨bs, if d.original_name = "" then d.filename else d.original_name,
            by simp [download_plugin, hp, hf, hl]⟩
  · intro pid oid st d bs hp hf hl
    rw [download_plugin_success pid oid st d bs hp hf hl]
    refine ⟨rfl, rfl, ?_⟩
    show findPlugin oid (incDownloadCount oid st.docs) = _
    rw [findPlugin_incDownloadCount, hf]
    rfl
  · intro N pid oid st d bs hp hf hd hl
    have h := downloadN_count N pid oid st d 0 bs hp hf hd hl
    simpa using h.1

/-- C4: an upload whose header credential differs from the configured
secret (including a missing header) is rejected as unauthorized (HTTP
401) with the state — blobs and records — completely unchanged. -/
theorem upload_unauthorized_no_state_change (name : String)
    (description version : Option String) (file : UploadFileArg)
    (x_owner_key env : Option String) (now : UTCTime) (dbErr : Option String)
    (removeFails : Bool) (st : ServerState)
    (h : x_owner_key ≠ some (env.getD "changeme")) :
    upload_plugin name description version file x_owner_key env now dbErr removeFails st
      = (.unauthorized, st) := by
  simp [upload_plugin, h]

/-- C5: an authorized upload whose client-supplied original filename does
not end in ".jar" after lowercasing is rejected with the invalid-input
error (HTTP 400) before any blob write or metadata insert: the state is
returned unchanged. -/
theorem upload_bad_extension_rejected (name : String)
    (description version : Option String) (F : String) (C : List Nat)
    (env : Option String) (now : UTCTime) (dbErr : Option String)
    (removeFails : Bool) (st : ServerState)
    (hF : F ≠ "")
    (hext : pyEndsWith (pyLower F) ".jar" = false) :
    upload_plugin name description version ⟨some F, C⟩ (some (env.getD "changeme")) env
        now dbErr removeFails st = (.badExtension, st) := by
  simp [upload_plugin, resolveOriginalName, hF, hext]

/-- C6: every entry the listing returns is the projection of a stored
record to exactly the keys id (the id string), name, description,
version, original_name, file_size (defaulting to 0 when absent),
download_count and created_at — and the internal stored `filename` key is
never among them. -/
theorem listing_projection_shape (st : ServerState) (limit : Option Nat)
    (e : List (String × JVal)) (he : e ∈ list_plugins limit st) :
    ∃ it, it ∈ st.docs ∧
      e = [("id", .s it._id), ("name", .s it.name),
           ("description", optS it.description), ("version", optS it.version),
           ("original_name", .s it.original_name),
           ("file_size", .nat (it.file_size.getD 0)),
           ("download_count", .nat (it.download_count.getD 0)),
           ("created_at", .s it.created_at)] ∧
      e.map Prod.fst = ["id", "name", "description", "version", "original_name",
        "file_size", "download_count", "created_at"] ∧
      "filename" ∉ e.map Prod.fst := by
  simp only [list_plugins, List.mem_map] at he
  obtain ⟨it, hit, rfl⟩ := he
  have hmem : it ∈ st.docs := by
    cases limit with
    | none => exact hit
    | some k => exact List.take_subset k st.docs hit
  refine ⟨it, hmem, rfl, rfl, ?_⟩
  intro hx
  simp [projectDoc] at hx

/-- C7 counterexample: a download with an arbitrary id string that is not
a well-formed 24-hex ObjectId does NOT yield a 404: `ObjectId` raises
before the lookup and the blanket handler turns it into an internal error
(HTTP 500). -/
theorem download_malformed_id_returns_500 :
    (download_plugin "random-id" ⟨[], [], 0⟩).1 = .internalError "is not a valid ObjectId" ∧
    (download_plugin "random-id" ⟨[], [], 0⟩).1 ≠ .notFound "Not found" ∧
    (download_plugin "random-id" ⟨[], [], 0⟩).1 ≠ .notFound "File missing on server" := by
  decide

/-- C7 amended: a download whose id parses as an ObjectId but matches no
stored record yields 404 "Not found"; one whose record exists but whose
blob is absent on disk yields 404 "File missing on server"; a malformed
id string instead yields an internal error (HTTP 500).  The state is
unchanged in all three cases. -/
theorem download_not_found_semantics (pid : String) (st : ServerState) :
    (∀ oid, parseObjectId pid = some oid → findPlugin oid st.docs = none →
       download_plugin pid st = (.notFound "Not found", st)) ∧
    (∀ oid d, parseObjectId pid = some oid → findPlugin oid st.docs = some d →
       fsLookup st.files d.filename = none →
       download_plugin pid st = (.notFound "File missing on server", st)) ∧
    (parseObjectId pid = none →
       download_plugin pid st = (.internalError "is not a valid ObjectId", st)) := by
  refine ⟨?_, ?_, ?_⟩
  · intro oid hp hf
    simp [download_plugin, hp, hf]
  · intro oid d hp hf hl
    simp [download_plugin, hp, hf, hl]
  · intro hp
    simp [download_plugin, hp]

/-- C8 counterexample: the sanitization replaces only the space character,
not every whitespace character — an original name containing a tab keeps
the tab in the stored filename, so "whitespace characters are replaced"
fails as stated. -/
theorem stored_name_keeps_tab_whitespace :
    Char.isWhitespace '\t' = true ∧
    sanitizeBase "a\tb.jar" = "a\tb.jar" ∧
    (upload_plugin "Foo" none none ⟨some "a\tb.jar", []⟩ (some "k") (some "k")
        ⟨2025, 1, 2, 3, 4, 5⟩ none false ⟨[], [], 0⟩).2.docs
      = [⟨⟨"Foo", none, none, "20250102030405_a\tb.jar", "a\tb.jar", some 0, some 0⟩,
          newObjectId 0, "created@0"⟩] ∧
    '\t' ∈ ("20250102030405_a\tb.jar").toList := by
  decide

/-- C8 amended: every accepted upload stores its blob under
`<timestamp>_<sanitized-base>` where the timestamp prefix is 14 decimal
digits, the sanitized base of the client name has directory components
discarded and every space character (' ', not all whitespace) replaced by
an underscore, and the whole stored filename contains no '/' — so the
stored path cannot escape the upload directory. -/
theorem stored_filename_shape (name : String) (description version : Option String)
    (file : UploadFileArg) (env : Option String) (now : UTCTime) (st : ServerState)
    (hext : pyEndsWith (pyLower (resolveOriginalName file.filename)) ".jar" = true) :
    ∃ d, (upload_plugin name description version file (some (env.getD "changeme")) env
            now none false st).2.docs = st.docs ++ [d] ∧
      d.filename
        = formatTimestamp now ++ "_" ++ sanitizeBase (resolveOriginalName file.filename) ∧
      (formatTimestamp now).toList.length = 14 ∧
      (∀ c ∈ (formatTimestamp now).toList, c.isDigit = true) ∧
      (∀ c ∈ (sanitizeBase (resolveOriginalName file.filename)).toList,
         c ≠ '/' ∧ c ≠ ' ') ∧
      (∀ c ∈ d.filename.toList, c ≠ '/') := by
  rw [upload_plugin_success_eq name description version file env now st hext]
  refine ⟨_, rfl, rfl, (formatTimestamp_digits now).1,
    (fun c hc => ((formatTimestamp_digits now).2 c hc).1),
    sanitizeBase_chars _, ?_⟩
  intro c hc
  have hc' : c ∈ (storedName now (resolveOriginalName file.filename)).toList := hc
  rw [storedName_toList] at hc'
  rcases List.mem_append.mp hc' with h1 | h2
  · exact ((formatTimestamp_digits now).2 c h1).2
  · rcases List.mem_cons.mp h2 with rfl | h3
    · decide
    · exact (sanitizeBase_chars _ c h3).1

/-- C9 counterexample: with the configured secret set to the empty string,
the verify endpoint rejects the empty token (Python truthiness) while the
upload endpoint authorizes it — the two call shapes of the Owner Gate are
not identical for every token and secret. -/
theorem owner_gate_shapes_differ :
    verify_owner "" (some "") = .invalidKey ∧
    (upload_plugin "Foo" none none ⟨some "x.jar", []⟩ (some "") (some "")
        ⟨2025, 1, 2, 3, 4, 5⟩ none false ⟨[], [], 0⟩).1 = .ok (newObjectId 0) := by
  decide

/-- C9 amended: whenever the configured secret is nonempty, the verify
endpoint authorizes a token exactly when the upload endpoint would accept
it as header credential; a missing upload header always fails closed.
(The two shapes differ only for the empty secret, where verify rejects
the matching empty token.) -/
theorem owner_gate_agreement (k : String) (env : Option String) (name : String)
    (description version : Option String) (file : UploadFileArg) (now : UTCTime)
    (dbErr : Option String) (removeFails : Bool) (st : ServerState)
    (hsec : env.getD "changeme" ≠ "") :
    (verify_owner k env = .ok ↔
       (upload_plugin name description version file (some k) env now dbErr removeFails
           st).1 ≠ .unauthorized) ∧
    (upload_plugin name description version file none env now dbErr removeFails st).1
      = .unauthorized := by
  constructor
  · rw [upload_auth_iff]
    constructor
    · intro hv
      by_cases hk : k = env.getD "changeme"
      · exact hk
      · simp [verify_owner, hk] at hv
    · intro hk
      subst hk
      simp [verify_owner, hsec]
  · simp [upload_plugin]

/-- C10: an authorized upload whose file part has no client filename
(absent or empty) is not rejected: the default original name
"plugin.jar" is substituted, passes the extension check, and is recorded
as the new document's `original_name`. -/
theorem upload_missing_filename_defaults (name : String)
    (description version : Option String) (C : List Nat) (env : Option String)
    (now : UTCTime) (st : ServerState) (fn : Option String)
    (hfn : fn = none ∨ fn = some "") :
    (upload_plugin name description version ⟨fn, C⟩ (some (env.getD "changeme")) env now
        none false st).1 = .ok (newObjectId st.nextId) ∧
    ∃ d, (upload_plugin name description version ⟨fn, C⟩ (some (env.getD "changeme")) env
            now none false st).2.docs = st.docs ++ [d] ∧
      d.original_name = "plugin.jar" := by
  have horig : resolveOriginalName fn = "plugin.jar" := by
    rcases hfn with rfl | rfl <;> simp [resolveOriginalName]
  have hext : pyEndsWith
      (pyLower (resolveOriginalName (⟨fn, C⟩ : UploadFileArg).filename)) ".jar"
      = true := by
    show pyEndsWith (pyLower (resolveOriginalName fn)) ".jar" = true
    rw [horig]
    decide
  rw [upload_plugin_success_eq name description version ⟨fn, C⟩ env now st hext]
  refine ⟨rfl, _, rfl, ?_⟩
  show resolveOriginalName fn = "plugin.jar"
  exact horig

/-! ### Witnesses: the theorems above applied at concrete inputs -/

/-- C1 witness: a failing insert at the empty state surfaces "boom" and
restores the empty state. -/
theorem upload_rollback_witness :
    (upload_plugin "Foo" none none ⟨some "x.jar", [9]⟩ (some "changeme") none tW
        (some "boom") false stEmpty).1 = .insertError "boom" ∧
    (upload_plugin "Foo" none none ⟨some "x.jar", [9]⟩ (some "changeme") none tW
        (some "boom") false stEmpty).2 = stEmpty := by
  have h := upload_rollback_on_insert_failure "Foo" none none ⟨some "x.jar", [9]⟩ none tW
    "boom" false stEmpty (by decide) (by decide)
  exact ⟨h.1, h.2.2⟩

/-- C2 witness: uploading [1,2,3] as "Cool Plugin.jar" and downloading id
0 round-trips the bytes and the original filename. -/
theorem upload_download_roundtrip_witness :
    (upload_plugin "Foo" none none ⟨some "Cool Plugin.jar", [1, 2, 3]⟩ (some "changeme")
        none tW none false stEmpty).1 = .ok (newObjectId 0) ∧
    (download_plugin (newObjectId 0)
        (upload_plugin "Foo" none none ⟨some "Cool Plugin.jar", [1, 2, 3]⟩
            (some "changeme") none tW none false stEmpty).2).1
      = .fileResp [1, 2, 3] "application/java-archive" "Cool Plugin.jar" :=
  upload_download_roundtrip "Foo" none none "Cool Plugin.jar" [1, 2, 3] none tW stEmpty
    (by decide) (by decide) (by decide)

/-- C3 witness: counter 0 at insert, unchanged on a failing download,
+1 on one successful download of `docW`, and 2 after two downloads. -/
theorem download_count_lifecycle_witness :
    (∃ d, (upload_plugin "Foo" none none ⟨some "x.jar", [9]⟩ (some "changeme") none tW
            none false stEmpty).2.docs = stEmpty.docs ++ [d] ∧
       d.download_count = some 0) ∧
    ((download_plugin "random-id" stEmpty).2 = stEmpty ∨
      ∃ bs fn, (download_plugin "random-id" stEmpty).1
        = .fileResp bs "application/java-archive" fn) ∧
    ((download_plugin (newObjectId 0) stW).2.docs
        = incDownloadCount (newObjectId 0) stW.docs ∧
     (download_plugin (newObjectId 0) stW).2.files = stW.files ∧
     findPlugin (newObjectId 0) (download_plugin (newObjectId 0) stW).2.docs
       = some { docW with download_count := some (docW.download_count.getD 0 + 1) }) ∧
    findPlugin (newObjectId 0) (downloadN 2 (newObjectId 0) stW).docs
      = some { docW with download_count := some 2 } := by
  obtain ⟨h1, h2, h3, h4⟩ := download_count_lifecycle
  refine ⟨?_, h2 "random-id" stEmpty, ?_, ?_⟩
  · exact h1 "Foo" none none ⟨some "x.jar", [9]⟩ none tW stEmpty (by decide)
  · exact h3 (newObjectId 0) (newObjectId 0) stW docW [1, 2, 3] (by decide) (by decide)
      (by decide)
  · exact h4 2 (newObjectId 0) (newObjectId 0) stW docW [1, 2, 3] (by decide) (by decide)
      (by decide) (by decide)

/-- C4 witness: a wrong header credential is rejected with the state
untouched. -/
theorem upload_unauthorized_witness :
    upload_plugin "Foo" none none ⟨some "x.jar", [9]⟩ (some "wrong") none tW none false
        stEmpty = (.unauthorized, stEmpty) :=
  upload_unauthorized_no_state_change "Foo" none none ⟨some "x.jar", [9]⟩ (some "wrong")
    none tW none false stEmpty (by decide)

/-- C5 witness: an authorized upload of "notes.txt" is rejected as a bad
extension with the state untouched. -/
theorem upload_bad_extension_witness :
    upload_plugin "Foo" none none ⟨some "notes.txt", [9]⟩ (some "changeme") none tW none
        false stEmpty = (.badExtension, stEmpty) :=
  upload_bad_extension_rejected "Foo" none none "notes.txt" [9] none tW none false
    stEmpty (by decide) (by decide)

/-- C6 witness: the one listing entry of `stW` is the projection of `docW`
with exactly the public keys and no "filename". -/
theorem listing_projection_witness :
    ∃ it, it ∈ stW.docs ∧
      projectDoc docW = [("id", .s it._id), ("name", .s it.name),
        ("description", optS it.description), ("version", optS it.version),
        ("original_name", .s it.original_name),
        ("file_size", .nat (it.file_size.getD 0)),
        ("download_count", .nat (it.download_count.getD 0)),
        ("created_at", .s it.created_at)] ∧
      (projectDoc docW).map Prod.fst = ["id", "name", "description", "version",
        "original_name", "file_size", "download_count", "created_at"] ∧
      "filename" ∉ (projectDoc docW).map Prod.fst :=
  listing_projection_shape stW none (projectDoc docW) (by decide)

/-- C7 amended witness: 404 for a parsed-but-absent id, 404 for a present
record with a missing blob, 500 for a malformed id. -/
theorem download_not_found_witness :
    download_plugin (newObjectId 5) stW = (.notFound "Not found", stW) ∧
    download_plugin (newObjectId 0) stMissing
      = (.notFound "File missing on server", stMissing) ∧
    download_plugin "random-id" stW = (.internalError "is not a valid ObjectId", stW) := by
  refine ⟨?_, ?_, ?_⟩
  · exact (download_not_found_semantics (newObjectId 5) stW).1 (newObjectId 5)
      (by decide) (by decide)
  · exact (download_not_found_semantics (newObjectId 0) stMissing).2.1 (newObjectId 0)
      docW (by decide) (by decide) (by decide)
  · exact (download_not_found_semantics "random-id" stW).2.2 (by decide)

/-- C8 amended witness: the stored name for "Cool Plugin.jar" at `tW` has
a 14-digit prefix and a slash- and space-free sanitized base. -/
theorem stored_filename_shape_witness :
    ∃ d, (upload_plugin "Foo" none none ⟨some "Cool Plugin.jar", [1, 2, 3]⟩
            (some "changeme") none tW none false stEmpty).2.docs
          = stEmpty.docs ++ [d] ∧
      d.filename
        = formatTimestamp tW ++ "_"
            ++ sanitizeBase (resolveOriginalName (some "Cool Plugin.jar")) ∧
      (formatTimestamp tW).toList.length = 14 ∧
      (∀ c ∈ (formatTimestamp tW).toList, c.isDigit = true) ∧
      (∀ c ∈ (sanitizeBase (resolveOriginalName (some "Cool Plugin.jar"))).toList,
         c ≠ '/' ∧ c ≠ ' ') ∧
      (∀ c ∈ d.filename.toList, c ≠ '/') :=
  stored_filename_shape "Foo" none none ⟨some "Cool Plugin.jar", [1, 2, 3]⟩ none tW
    stEmpty (by decide)

/-- C9 amended witness: with the default secret, the gate shapes agree on
the token "changeme" and the missing header fails closed. -/
theorem owner_gate_agreement_witness :
    (verify_owner "changeme" none = .ok ↔
       (upload_plugin "Foo" none none ⟨some "x.jar", [9]⟩ (some "changeme") none tW none
           false stEmpty).1 ≠ .unauthorized) ∧
    (upload_plugin "Foo" none none ⟨some "x.jar", [9]⟩ none none tW none false
        stEmpty).1 = .unauthorized :=
  owner_gate_agreement "changeme" none "Foo" none none ⟨some "x.jar", [9]⟩ tW none false
    stEmpty (by decide)

/-- C10 witness: an upload with no client filename succeeds and records
"plugin.jar" as the original name. -/
theorem upload_missing_filename_witness :
    (upload_plugin "Foo" none none ⟨none, [7]⟩ (some "changeme") none tW none false
        stEmpty).1 = .ok (newObjectId 0) ∧
    ∃ d, (upload_plugin "Foo" none none ⟨none, [7]⟩ (some "changeme") none tW none false
            stEmpty).2.docs = stEmpty.docs ++ [d] ∧
      d.original_name = "plugin.jar" :=
  upload_missing_filename_defaults "Foo" none none [7] none tW stEmpty none (Or.inl rfl)
